import Mathlib

/-!
Shallow embedding of the autotune (runtime kernel-selection) layer of the
burn-cubecl backend: shape-key builders, synthetic input generators, candidate
kernels and the per-operation autotune entry points, together with theorems
about the properties these components are expected to satisfy.

Machine integers (`usize`) are modelled as `Nat`; the sizes involved (shapes,
strides, counts of cubes) stay far below 2^64 in every statement so wrap-around
is irrelevant.  Rust panics are modelled explicitly with an `Except Panic`
result; external kernel launches are opaque candidate functions supplied by an
environment record, following the specification's view of candidates as opaque.
-/

namespace Burn

/-- Element data types (`burn_tensor::DType`), restricted to the cases the
statements use. -/
inductive DType where
  | F32
  | F16
  | I32
  | U32
  deriving DecidableEq, Repr

/-- Provenance of a tensor's element data.  The key builders must never read
element data, and the synthetic generators must fill tensors from a bounded
uniform distribution; recording the provenance (rather than concrete element
values) is exactly what those statements need. -/
inductive TensorData where
  /-- Real data supplied by the caller, tagged by an identifier. -/
  | real (id : Nat)
  /-- Freshly allocated device memory, not initialised (`empty_device`). -/
  | uninit
  /-- Freshly allocated device memory initialised to zero. -/
  | zeroInit
  /-- Values drawn uniformly from the inclusive range `[lo, hi]`
  (`random_uniform` / `random_like_uniform`). -/
  | randomUniform (lo hi : Int)
  deriving DecidableEq, Repr

/-- `CubeTensor`: shape, strides, dtype, device/client identities, the buffer
handle, and the data provenance.  Devices, clients and handles are opaque
identifiers. -/
structure CubeTensor where
  shape : List Nat
  strides : List Nat
  dtype : DType
  device : Nat
  client : Nat
  handle : Nat
  data : TensorData
  deriving DecidableEq, Repr

/-- The ways the modelled code can panic (Rust `panic!`, slice indexing,
`unwrap`, `expect`, usize subtraction underflow, array-pattern destructuring). -/
inductive Panic where
  /-- The explicit `panic!("axis {axis} is out-of-bound for a rank of {rank}")`
  guard in `ReduceAutotuneKey::generate`. -/
  | axisOutOfBound (axis rank : Nat)
  /-- A Rust slice-index panic (`dims[axis]` with `axis` out of bounds). -/
  | indexOutOfBounds
  /-- `usize` subtraction underflow (debug) or the `Option::unwrap` panic that
  the wrapped index produces in release mode. -/
  | unwrapFailure
  /-- Destructuring `shape.dims()` into a fixed-arity array with the wrong rank. -/
  | shapeMismatch
  /-- The `unreachable!()` arm of a match. -/
  | unreachableArm
  /-- `Result::expect(msg)` applied to an `Err`. -/
  | expectPanic (msg : String)
  deriving DecidableEq, Repr

/-- Modelled from the spec: the quantization applied to `#[autotune(anchor)]`
fields by the `new` constructor that the `AutotuneKey` derive macro generates
(the macro lives in the external tuning library, outside the shown sources).
The spec describes it as rounding a numeric field to a power-of-two-like
bucket, stable and monotonic; concretely this is rounding up to the next power
of two.  Implemented with a doubling accumulator and structural fuel so that it
evaluates by kernel reduction. -/
def anchorAux (x : Nat) : Nat → Nat → Nat
  | 0, acc => acc
  | fuel + 1, acc => if x ≤ acc then acc else anchorAux x fuel (acc * 2)

/-- Modelled from the spec: round `x` up to the next power of two (the anchor
bucket of `x`). -/
def anchor (x : Nat) : Nat := anchorAux x x 1

/-- Row-major contiguous strides for a shape. -/
def contiguousStrides : List Nat → List Nat
  | [] => []
  | _ :: rest => rest.prod :: contiguousStrides rest

/-- Autotune key for reduce operations (`ReduceAutotuneKey`).  The three
numeric fields are declared `#[autotune(anchor)]` in the source. -/
structure ReduceAutotuneKey where
  dtype : DType
  reduce_axis_shape : Nat
  reduce_axis_stride : Nat
  outer_axes_product : Nat
  deriving DecidableEq, Repr

/-- Modelled from the spec: the `new` constructor generated by the external
`AutotuneKey` derive macro anchors every `#[autotune(anchor)]` field before
storing it. -/
def ReduceAutotuneKey.new (dtype : DType) (reduce_axis_shape reduce_axis_stride outer_axes_product : Nat) : ReduceAutotuneKey :=
  { dtype := dtype
    reduce_axis_shape := anchor reduce_axis_shape
    reduce_axis_stride := anchor reduce_axis_stride
    outer_axes_product := anchor outer_axes_product }

/-- `ReduceAutotuneKey::generate`: guard `axis > rank`, then read
`shape.dims[axis]` and `strides[axis]` (slice indexing, which panics when out
of bounds), then take the product of the shapes of all axes whose stride is
strictly greater than the reduced axis's stride, and build the key through the
anchoring constructor. -/
def ReduceAutotuneKey.generate (input : CubeTensor) (axis : Nat) : Except Panic ReduceAutotuneKey :=
  let rank := input.shape.length
  if axis > rank then
    .error (.axisOutOfBound axis rank)
  else
    match input.shape.get? axis with
    | none => .error .indexOutOfBounds
    | some reduce_axis_shape =>
      match input.strides.get? axis with
      | none => .error .indexOutOfBounds
      | some reduce_axis_stride =>
        let outer_axes_product :=
          ((input.strides.zip input.shape).filterMap
            (fun p => if reduce_axis_stride < p.1 then some p.2 else none)).prod
        .ok (ReduceAutotuneKey.new input.dtype reduce_axis_shape
              reduce_axis_stride outer_axes_product)

/-- Autotune key for sum (`SumAutotuneKey`).  `length` is declared
`#[autotune(anchor)]` in the source. -/
structure SumAutotuneKey where
  dtype : DType
  length : Nat
  deriving DecidableEq, Repr

/-- `SumAutotuneKey::generate`: dtype and total number of elements.  Note that
the source constructs the struct literally (`Self { dtype, length }`), not
through the derive-generated anchoring `new`, so `length` is stored raw. -/
def SumAutotuneKey.generate (input : CubeTensor) : SumAutotuneKey :=
  { dtype := input.dtype, length := input.shape.prod }

/-- `burn_tensor::ops::ConvTransposeOptions<2>`: stride, padding, output
padding and dilation are two-element arrays, modelled as pairs. -/
structure ConvTransposeOptions where
  stride : Nat × Nat
  padding : Nat × Nat
  dilation : Nat × Nat
  groups : Nat
  padding_out : Nat × Nat
  deriving DecidableEq, Repr

/-- Modelled from the spec: `ConvTranspose2dAutotuneKey` (defined in a sibling
module of the repository that is not among the shown sources).  Its fields
mirror, in order, the arguments `create_key` passes to its `new` constructor:
structural parameters (kernel size, stride, padding, output padding, dilation,
groups), channel/spatial/batch sizes, a has-bias flag, and the dtype. -/
structure ConvTranspose2dAutotuneKey where
  kernel_size : Nat × Nat
  stride : Nat × Nat
  padding : Nat × Nat
  padding_out : Nat × Nat
  dilation : Nat × Nat
  groups : Nat
  in_channels : Nat
  out_channels : Nat
  height : Nat
  width : Nat
  batch_size : Nat
  has_bias : Bool
  dtype : DType
  deriving DecidableEq, Repr

/-- Modelled from the spec: the derive-generated `new` constructor of
`ConvTranspose2dAutotuneKey`.  Whether the macro anchors any of the numeric
fields is not visible in the shown sources; it is irrelevant to the statements
proved here (determinism, purity in the metadata, and the has-bias flag, which
is a boolean and is stored as passed), so the constructor is modelled as
storing its arguments. -/
def ConvTranspose2dAutotuneKey.new (kernel_size stride padding padding_out dilation : Nat × Nat)
    (groups in_channels out_channels height width batch_size : Nat)
    (has_bias : Bool) (dtype : DType) : ConvTranspose2dAutotuneKey :=
  { kernel_size := kernel_size, stride := stride, padding := padding
    padding_out := padding_out, dilation := dilation, groups := groups
    in_channels := in_channels, out_channels := out_channels
    height := height, width := width, batch_size := batch_size
    has_bias := has_bias, dtype := dtype }

/-- `CubeAutotuneKey`: the variant key type, one case per tunable operation
family appearing in the shown sources. -/
inductive CubeAutotuneKey where
  | Reduce (key : ReduceAutotuneKey)
  | Sum (key : SumAutotuneKey)
  | ConvTranspose2d (key : ConvTranspose2dAutotuneKey)
  deriving DecidableEq, Repr

/-- `random_like_uniform(input, lo, hi)`: a freshly allocated tensor with the
shape, strides, dtype, device and client of `input`, filled with uniform values
in `[lo, hi]`.  `fresh` is the handle the allocator hands out.  The bounds are
the exact small integers the source converts into the element type. -/
def random_like_uniform (fresh : Nat) (input : CubeTensor) (lo hi : Int) : CubeTensor :=
  { input with handle := fresh, data := .randomUniform lo hi }

/-- `random_uniform(shape, device, lo, hi)`: a freshly allocated contiguous
tensor of the given shape on the given device, filled with uniform values in
`[lo, hi]`.  The compute client is obtained from the device by the runtime;
`clientOf` models that association. -/
def clientOf (device : Nat) : Nat := device

/-- See `clientOf`. -/
def random_uniform (fresh : Nat) (shape : List Nat) (device : Nat) (dtype : DType)
    (lo hi : Int) : CubeTensor :=
  { shape := shape, strides := contiguousStrides shape, dtype := dtype
    device := device, client := clientOf device, handle := fresh
    data := .randomUniform lo hi }

/-- `empty_device::<R, E>(client, device, shape)`: a freshly allocated,
uninitialised contiguous tensor of the given shape, on the given client and
device, with element type `edtype`. -/
def empty_device (fresh : Nat) (client device : Nat) (shape : List Nat)
    (edtype : DType) : CubeTensor :=
  { shape := shape, strides := contiguousStrides shape, dtype := edtype
    device := device, client := client, handle := fresh, data := .uninit }

/-- `CubeTensor::new_contiguous(client, device, shape, handle, dtype)` applied
to a handle freshly created from zero bytes (as in `sum_one_shot`). -/
def CubeTensor.new_contiguous (client device : Nat) (shape : List Nat)
    (handle : Nat) (dtype : DType) : CubeTensor :=
  { shape := shape, strides := contiguousStrides shape, dtype := dtype
    device := device, client := client, handle := handle, data := .zeroInit }

/-- Modelled from the spec: `LocalTuner::execute` of the external tuning
library.  It benchmarks every candidate on the synthetic operands and returns
`Ok` of a succeeding candidate's output, or `Err` when every candidate declined
or failed; a panicking candidate aborts the whole call.  Winner selection by
measured time is abstracted: the first succeeding candidate stands for the
winner (which candidate wins is irrelevant to every statement below).  The
cache is not modelled: each modelled call is a first, uncached execution. -/
def tunerExecute {α : Type} : List (Except Panic (Except String α)) → Except Panic (Except String α)
  | [] => .ok (.error "all candidates failed")
  | r :: rest =>
    match r with
    | .error p => .error p
    | .ok (.ok v) => .ok (.ok v)
    | .ok (.error _) => tunerExecute rest

/-- `Result::expect(msg)`: unwrap an `Ok`, panic with `msg` on an `Err`. -/
def expectResult {α : Type} (msg : String) : Except String α → Except Panic α
  | .ok v => .ok v
  | .error _ => .error (.expectPanic msg)

namespace ReduceTune

/-- `cubecl::reduce::ReduceStrategy`. -/
structure ReduceStrategy where
  shared : Bool
  use_planes : Bool
  deriving DecidableEq, Repr

/-- Environment of external collaborators for the reduce family: the opaque
`cubecl::reduce::reduce` launch (a function of the strategy and the operands,
returning `Ok` or an error string), and the allocator's next fresh handle. -/
structure ReduceEnv where
  launch : ReduceStrategy → CubeTensor → CubeTensor → Nat → Except String Unit
  fresh : Nat

/-- `create_key` of the reduce tunable set: wraps
`ReduceAutotuneKey::generate(input, dim)`; the output tensor is ignored. -/
def create_key (input : CubeTensor) (_output : CubeTensor) (dim : Nat) :
    Except Panic CubeAutotuneKey :=
  (ReduceAutotuneKey.generate input dim).map CubeAutotuneKey.Reduce

/-- `reduce_input_gen`: a synthetic input like the real input filled uniformly
in `[-10, 10]`, a fresh empty output with the real output's client, device and
shape, and the axis unchanged. -/
def reduce_input_gen (edtypeOut : DType) (env : ReduceEnv)
    (input output : CubeTensor) (dim : Nat) : CubeTensor × CubeTensor × Nat :=
  let input := random_like_uniform env.fresh input (-10) 10
  let output := empty_device (env.fresh + 1) output.client output.device output.shape edtypeOut
  (input, output, dim)

/-- The `reduce` candidate: strategy `shared = false, use_planes = false`. -/
def reduce (env : ReduceEnv) (input output : CubeTensor) (axis : Nat) : Except String Unit :=
  env.launch { shared := false, use_planes := false } input output axis

/-- The `reduce_shared` candidate: strategy `shared = true, use_planes = false`. -/
def reduce_shared (env : ReduceEnv) (input output : CubeTensor) (axis : Nat) : Except String Unit :=
  env.launch { shared := true, use_planes := false } input output axis

/-- The `reduce_plane` candidate: strategy `shared = false, use_planes = true`. -/
def reduce_plane (env : ReduceEnv) (input output : CubeTensor) (axis : Nat) : Except String Unit :=
  env.launch { shared := false, use_planes := true } input output axis

/-- The `reduce_shared_plane` candidate: strategy `shared = true, use_planes = true`. -/
def reduce_shared_plane (env : ReduceEnv) (input output : CubeTensor) (axis : Nat) : Except String Unit :=
  env.launch { shared := true, use_planes := true } input output axis

/-- Observable outcome of one `autotune_reduce` call: whether synthetic
operands were generated, how many candidates were invoked, and the final
result (`Ok` or a panic). -/
structure ReduceRun where
  syntheticGenerated : Bool
  candidatesInvoked : Nat
  result : Except Panic Unit
  deriving Repr

/-- `autotune_reduce`: build the key (a panic there propagates before anything
else happens), generate the synthetic operands, benchmark the four candidates,
and `expect` the tuner's result with message "All autotuners failed". -/
def autotune_reduce (edtypeOut : DType) (env : ReduceEnv)
    (input output : CubeTensor) (dim : Nat) : ReduceRun :=
  match create_key input output dim with
  | .error p => { syntheticGenerated := false, candidatesInvoked := 0, result := .error p }
  | .ok _key =>
    match reduce_input_gen edtypeOut env input output dim with
    | (i, o, d) =>
      let results : List (Except Panic (Except String Unit)) :=
        [.ok (reduce env i o d), .ok (reduce_shared env i o d),
         .ok (reduce_plane env i o d), .ok (reduce_shared_plane env i o d)]
      { syntheticGenerated := true
        candidatesInvoked := 4
        result :=
          match tunerExecute results with
          | .error p => .error p
          | .ok r => expectResult "All autotuners failed" r }

end ReduceTune

namespace SumTune

/-- Environment of external collaborators for the sum family: the opaque
`cubecl::reduce::shared_sum` launch (by chunk size), the opaque chained
reduction (`crate::kernel::reduce::reduce`, in a module outside the shown
sources), the element dtype `E::dtype()`, and the allocator's next fresh
handle. -/
structure SumEnv where
  sharedSum : Nat → CubeTensor → Except String Unit
  chained : CubeTensor → Except String CubeTensor
  edtype : DType
  fresh : Nat

/-- `create_key_sum`: wraps `SumAutotuneKey::generate(input)`. -/
def create_key_sum (input : CubeTensor) : CubeAutotuneKey :=
  CubeAutotuneKey.Sum (SumAutotuneKey.generate input)

/-- `sum_input_gen`: a synthetic input like the real input filled uniformly in
`[-10, 10]`. -/
def sum_input_gen (env : SumEnv) (input : CubeTensor) : CubeTensor :=
  random_like_uniform env.fresh input (-10) 10

/-- `sum_one_shot::<_, _, C>`: allocate a fresh single-element zero output and
run `shared_sum` with chunk size `C`, returning the output on success. -/
def sum_one_shot (env : SumEnv) (chunk : Nat) (input : CubeTensor) :
    Except String CubeTensor :=
  let output := CubeTensor.new_contiguous input.client input.device [1]
    (env.fresh + 1) env.edtype
  match env.sharedSum chunk input with
  | .error e => .error e
  | .ok _ => .ok output

/-- `sum_chained`: the chained reduction candidate (an opaque call into the
reduce module). -/
def sum_chained (env : SumEnv) (input : CubeTensor) : Except String CubeTensor :=
  env.chained input

/-- `autotune_sum`: benchmark `sum_chained` and `sum_one_shot` with chunk sizes
1, 2, 4, 8, 16, 32 and 64 on a synthetic input, and `expect` the tuner's
result with message "All autotuners failed". -/
def autotune_sum (env : SumEnv) (input : CubeTensor) : Except Panic CubeTensor :=
  let _key := create_key_sum input
  let i := sum_input_gen env input
  let results : List (Except Panic (Except String CubeTensor)) :=
    [.ok (sum_chained env i), .ok (sum_one_shot env 1 i), .ok (sum_one_shot env 2 i),
     .ok (sum_one_shot env 4 i), .ok (sum_one_shot env 8 i), .ok (sum_one_shot env 16 i),
     .ok (sum_one_shot env 32 i), .ok (sum_one_shot env 64 i)]
  match tunerExecute results with
  | .error p => .error p
  | .ok r => expectResult "All autotuners failed" r

end SumTune

namespace MatmulTune

/-- `cubecl::linalg::matmul::kernels::tiling2d::Tiling2dConfig`, restricted to
the fields the shown sources read. -/
structure Tiling2dConfig where
  block_size_m : Nat
  block_size_n : Nat
  deriving DecidableEq, Repr

/-- The matmul kernel strategies the shown sources launch. -/
inductive Strategy where
  | Simple
  | Tiling2D (config : Tiling2dConfig)
  deriving DecidableEq, Repr

/-- One call to `cubecl::linalg::matmul::launch_ref`: the strategy and the
three tensors whose handle refs are passed. -/
structure LaunchCall where
  strategy : Strategy
  lhs : CubeTensor
  rhs : CubeTensor
  out : CubeTensor
  deriving DecidableEq, Repr

/-- Environment of external collaborators for the matmul family: the opaque
`launch_ref`, the device's maximum cube count `R::max_cube_count()`, the
external crate's `Tiling2dConfig::default()`, the output initialiser
`init_matmul_output` (in a module outside the shown sources, used only when no
output tensor is passed), and the allocator's next fresh handle. -/
structure MatmulEnv where
  launch_ref : LaunchCall → Except String Unit
  maxX : Nat
  maxY : Nat
  maxZ : Nat
  tiling2dDefault : Tiling2dConfig
  initMatmulOutput : CubeTensor → CubeTensor → CubeTensor
  fresh : Nat

/-- Outcome of running one matmul candidate: the kernel launches it performed
on the device, and its result (a panic, a decline/failure string, or success). -/
structure CandidateRun where
  launches : List LaunchCall
  result : Except Panic (Except String Unit)

/-- `matmul_input_gen`: synthetic lhs and rhs like the real ones filled
uniformly in `[-10, 10]`, and a fresh empty output with the real output's
client, device and shape. -/
def matmul_input_gen (edtype : DType) (env : MatmulEnv) (lhs rhs out : CubeTensor) :
    CubeTensor × CubeTensor × CubeTensor :=
  let lhs := random_like_uniform env.fresh lhs (-10) 10
  let rhs := random_like_uniform (env.fresh + 1) rhs (-10) 10
  let out := empty_device (env.fresh + 2) out.client out.device out.shape edtype
  (lhs, rhs, out)

/-- Ceiling division on `Nat`, modelling
`f32::ceil(a as f32 / b as f32) as u32` exactly (the sizes involved are far
below the range where `f32` rounding could diverge). -/
def ceilDiv (a b : Nat) : Nat := (a + b - 1) / b

/-- The `matmul_accelerated` candidate: launches `Strategy::Simple` on the
three operands. -/
def matmul_accelerated (env : MatmulEnv) (lhs rhs out : CubeTensor) : CandidateRun :=
  let call : LaunchCall := { strategy := .Simple, lhs := lhs, rhs := rhs, out := out }
  { launches := [call], result := .ok (env.launch_ref call) }

/-- The `matmul_tiling2d` candidate: read the last two output dimensions
(`shape.get(rank - 2).unwrap()` panics through `usize` underflow when the rank
is below 2), compute the required cube counts with the default tiling
configuration, decline without launching when they exceed the device maximum,
and otherwise launch `Strategy::Tiling2D`. -/
def matmul_tiling2d (env : MatmulEnv) (lhs rhs out : CubeTensor) : CandidateRun :=
  let config := env.tiling2dDefault
  let output_shape := out.shape
  let rank := output_shape.length
  if rank < 2 then
    { launches := [], result := .error .unwrapFailure }
  else
    match output_shape.get? (rank - 2), output_shape.get? (rank - 1) with
    | some num_rows, some num_cols =>
      let cubes_x := ceilDiv num_rows config.block_size_m
      let cubes_y := ceilDiv num_cols config.block_size_n
      if cubes_x > env.maxX ∨ cubes_y > env.maxY then
        { launches := [], result := .ok (.error "Cube size too large") }
      else
        let call : LaunchCall := { strategy := .Tiling2D config, lhs := lhs, rhs := rhs, out := out }
        { launches := [call], result := .ok (env.launch_ref call) }
    | _, _ => { launches := [], result := .error .indexOutOfBounds }

/-- The `matmul_simple` candidate: launches `Strategy::Simple` on the three
operands. -/
def matmul_simple (env : MatmulEnv) (lhs rhs out : CubeTensor) : CandidateRun :=
  let call : LaunchCall := { strategy := .Simple, lhs := lhs, rhs := rhs, out := out }
  { launches := [call], result := .ok (env.launch_ref call) }

/-- Observable outcome of one `matmul_autotune` call: the value `TUNER.execute`
returned (which the source discards), and what the function itself returns. -/
structure MatmulRun where
  tunerResult : Except Panic (Except String Unit)
  result : Except Panic CubeTensor

/-- `matmul_autotune`: take the passed output tensor or initialise one,
benchmark `matmul_tiling2d`, `matmul_accelerated` and `matmul_simple` on
synthetic operands, DISCARD the tuner's `Result`, and return the output tensor
(a panic inside a candidate still aborts the call; an `Err` from the tuner does
not). -/
def matmul_autotune (edtype : DType) (env : MatmulEnv)
    (lhs rhs : CubeTensor) (out : Option CubeTensor) : MatmulRun :=
  let output := out.getD (env.initMatmulOutput lhs rhs)
  match matmul_input_gen edtype env lhs rhs output with
  | (l, r, o) =>
    let results : List (Except Panic (Except String Unit)) :=
      [(matmul_tiling2d env l r o).result, (matmul_accelerated env l r o).result,
       (matmul_simple env l r o).result]
    let tuned := tunerExecute results
    { tunerResult := tuned
      result :=
        match tuned with
        | .error p => .error p
        | .ok _ => .ok output }

end MatmulTune

namespace ConvTune

/-- Environment of external collaborators for the conv-transpose-2d family:
the two opaque candidates `conv_transpose2d_direct` and
`conv_transpose2d_col2im` (defined in modules outside the shown sources), the
element dtype `E::dtype()`, and the allocator's next fresh handle. -/
structure ConvEnv where
  direct : CubeTensor → CubeTensor → Option CubeTensor → ConvTransposeOptions →
    Except String CubeTensor
  col2im : CubeTensor → CubeTensor → Option CubeTensor → ConvTransposeOptions →
    Except String CubeTensor
  edtype : DType
  fresh : Nat

/-- `create_key` of the conv-transpose-2d tunable set: destructure the input
shape as `[batch_size, in_channels, height, width]` and the weight shape as
`[out_channels, _, kernel_h, kernel_w]` (a panic if either rank is not 4),
destructure the options, and build the key with `has_bias = bias.is_some()`
and the element dtype.  It reads no strides and no element data. -/
def create_key (edtype : DType) (input weights : CubeTensor)
    (bias : Option CubeTensor) (options : ConvTransposeOptions) :
    Except Panic CubeAutotuneKey :=
  match input.shape, weights.shape with
  | [batch_size, in_channels, height, width], [out_channels, _c, kernel_h, kernel_w] =>
    .ok (CubeAutotuneKey.ConvTranspose2d
      (ConvTranspose2dAutotuneKey.new (kernel_h, kernel_w) options.stride
        options.padding options.padding_out options.dilation options.groups
        in_channels out_channels height width batch_size bias.isSome edtype))
  | _, _ => .error .shapeMismatch

/-- `create_transpose2d_input`: rebuild synthetic operands from the key alone —
input of shape `[batch_size, in_channels, height, width]`, weights of shape
`[out_channels, in_channels / groups, kernel_h, kernel_w]`, both uniform in
`[-1, 1]`, and a synthetic bias (uniform in `[-1, 1]`, shape `[out_channels]`)
present exactly when the key's `has_bias` flag is set; the literal bias
argument is ignored.  A non-conv key hits the `unreachable!()` arm. -/
def create_transpose2d_input (env : ConvEnv) (key : CubeAutotuneKey)
    (input _weights : CubeTensor) (_bias : Option CubeTensor)
    (options : ConvTransposeOptions) :
    Except Panic (CubeTensor × CubeTensor × Option CubeTensor × ConvTransposeOptions) :=
  match key with
  | .ConvTranspose2d key =>
    let device := input.device
    let input_shape := [key.batch_size, key.in_channels, key.height, key.width]
    let input := random_uniform env.fresh input_shape device env.edtype (-1) 1
    let c_per_grp := key.in_channels / key.groups
    let weight_shape := [key.out_channels, c_per_grp, key.kernel_size.1, key.kernel_size.2]
    let weights := random_uniform (env.fresh + 1) weight_shape device env.edtype (-1) 1
    let bias_shape := [key.out_channels]
    let bias :=
      if key.has_bias then
        some (random_uniform (env.fresh + 2) bias_shape device env.edtype (-1) 1)
      else none
    .ok (input, weights, bias, options)
  | _ => .error .unreachableArm

/-- `conv_transpose2d_autotune`: build the key (a panic there propagates before
anything else happens), generate the synthetic operands from it, benchmark the
two candidates, and `expect` the tuner's result with message "All autotuners
failed". -/
def conv_transpose2d_autotune (env : ConvEnv) (input weights : CubeTensor)
    (bias : Option CubeTensor) (options : ConvTransposeOptions) :
    Except Panic CubeTensor :=
  match create_key env.edtype input weights bias options with
  | .error p => .error p
  | .ok key =>
    match create_transpose2d_input env key input weights bias options with
    | .error p => .error p
    | .ok (i, w, b, o) =>
      let results : List (Except Panic (Except String CubeTensor)) :=
        [.ok (env.direct i w b o), .ok (env.col2im i w b o)]
      match tunerExecute results with
      | .error p => .error p
      | .ok r => expectResult "All autotuners failed" r

end ConvTune

/-- The quantity the spec describes for the reduce key: the product, over all
axes, of the axis's shape when its stride strictly exceeds the reduced axis's
stride (and a factor 1 otherwise), written as a product over axis indices. -/
def outerAxesProductSpec (input : CubeTensor) (reduceStride : Nat) : Nat :=
  ((List.range input.shape.length).map (fun i =>
    if reduceStride < input.strides.getD i 0 then input.shape.getD i 1 else 1)).prod

/-! Concrete fixtures used by witnesses and counterexamples. -/

/-- A contiguous 3×4 f32 tensor holding real data. -/
def tMat34 : CubeTensor :=
  { shape := [3, 4], strides := [4, 1], dtype := .F32
    device := 0, client := 0, handle := 0, data := .real 0 }

/-- A tensor with the metadata of `tMat34` but different element data and a
different handle. -/
def tMat34' : CubeTensor :=
  { shape := [3, 4], strides := [4, 1], dtype := .F32
    device := 0, client := 0, handle := 7, data := .randomUniform 0 1 }

/-- A contiguous length-3 f32 vector (an output buffer for reducing `tMat34`
over axis 1). -/
def tVec3 : CubeTensor :=
  { shape := [3], strides := [1], dtype := .F32
    device := 0, client := 0, handle := 1, data := .real 1 }

/-- A contiguous length-4 f32 vector. -/
def tVec4 : CubeTensor :=
  { shape := [4], strides := [1], dtype := .F32
    device := 0, client := 0, handle := 2, data := .real 2 }

/-- A contiguous length-1000 f32 vector. -/
def tVec1000 : CubeTensor :=
  { shape := [1000], strides := [1], dtype := .F32
    device := 0, client := 0, handle := 3, data := .real 3 }

/-- A contiguous length-1024 f32 vector. -/
def tVec1024 : CubeTensor :=
  { shape := [1024], strides := [1], dtype := .F32
    device := 0, client := 0, handle := 4, data := .real 4 }

/-- A contiguous 2×3 f32 matrix (same element count as a length-6 vector). -/
def tMat23 : CubeTensor :=
  { shape := [2, 3], strides := [3, 1], dtype := .F32
    device := 0, client := 0, handle := 5, data := .real 5 }

/-- A contiguous length-6 f32 vector. -/
def tVec6 : CubeTensor :=
  { shape := [6], strides := [6], dtype := .F32
    device := 0, client := 0, handle := 6, data := .real 6 }

/-- A rank-0 f32 tensor (empty shape). -/
def tScalar : CubeTensor :=
  { shape := [], strides := [], dtype := .F32
    device := 0, client := 0, handle := 8, data := .real 8 }

/-- A conv-transpose input: batch 2, 3 channels, 8×8 spatial, contiguous. -/
def tConvIn : CubeTensor :=
  { shape := [2, 3, 8, 8], strides := [192, 64, 8, 1], dtype := .F32
    device := 0, client := 0, handle := 9, data := .real 9 }

/-- A conv-transpose input with the metadata of `tConvIn` but different
element data and a different handle. -/
def tConvIn' : CubeTensor :=
  { shape := [2, 3, 8, 8], strides := [192, 64, 8, 1], dtype := .F32
    device := 0, client := 0, handle := 13, data := .randomUniform 0 1 }

/-- Conv-transpose weights: 5 output channels, 3 channels per group, 2×2
kernel, contiguous. -/
def tConvW : CubeTensor :=
  { shape := [5, 3, 2, 2], strides := [12, 4, 2, 1], dtype := .F32
    device := 0, client := 0, handle := 10, data := .real 10 }

/-- Conv-transpose weights with the shape of `tConvW` but different element
data and handle. -/
def tConvW' : CubeTensor :=
  { shape := [5, 3, 2, 2], strides := [12, 4, 2, 1], dtype := .F32
    device := 0, client := 0, handle := 14, data := .randomUniform 0 1 }

/-- A conv-transpose bias of 5 output channels. -/
def tConvB : CubeTensor :=
  { shape := [5], strides := [1], dtype := .F32
    device := 0, client := 0, handle := 11, data := .real 11 }

/-- The conv-transpose key for `tConvIn`/`tConvW` with a bias under
`convOpts`. -/
def convKeyB : ConvTranspose2dAutotuneKey :=
  { kernel_size := (2, 2), stride := (1, 1), padding := (0, 0)
    padding_out := (0, 0), dilation := (1, 1), groups := 1
    in_channels := 3, out_channels := 5, height := 8, width := 8
    batch_size := 2, has_bias := true, dtype := .F32 }

/-- Unit stride/padding/dilation conv-transpose options with one group. -/
def convOpts : ConvTransposeOptions :=
  { stride := (1, 1), padding := (0, 0), dilation := (1, 1)
    groups := 1, padding_out := (0, 0) }

/-- A reduce environment in which every kernel launch fails. -/
def reduceEnvFail : ReduceTune.ReduceEnv :=
  { launch := fun _ _ _ _ => .error "launch failed", fresh := 100 }

/-- A sum environment in which every kernel launch fails. -/
def sumEnvFail : SumTune.SumEnv :=
  { sharedSum := fun _ _ => .error "launch failed"
    chained := fun _ => .error "launch failed"
    edtype := .F32, fresh := 100 }

/-- A conv-transpose environment in which both candidates fail. -/
def convEnvFail : ConvTune.ConvEnv :=
  { direct := fun _ _ _ _ => .error "launch failed"
    col2im := fun _ _ _ _ => .error "launch failed"
    edtype := .F32, fresh := 100 }

/-- A conv-transpose environment whose candidates succeed (used by
witnesses that only exercise the generators). -/
def convEnvOk : ConvTune.ConvEnv :=
  { direct := fun i _ _ _ => .ok i
    col2im := fun i _ _ _ => .ok i
    edtype := .F32, fresh := 100 }

/-- A matmul environment in which every kernel launch fails, with a spacious
device limit. -/
def matmulEnvFail : MatmulTune.MatmulEnv :=
  { launch_ref := fun _ => .error "launch failed"
    maxX := 65535, maxY := 65535, maxZ := 65535
    tiling2dDefault := { block_size_m := 64, block_size_n := 64 }
    initMatmulOutput := fun _ rhs => rhs
    fresh := 100 }

/-- A matmul environment whose launches succeed, with a spacious device
limit. -/
def matmulEnvOk : MatmulTune.MatmulEnv :=
  { launch_ref := fun _ => .ok ()
    maxX := 65535, maxY := 65535, maxZ := 65535
    tiling2dDefault := { block_size_m := 64, block_size_n := 64 }
    initMatmulOutput := fun _ rhs => rhs
    fresh := 100 }

/-- A matmul environment whose launches succeed but whose device admits no
cubes at all (`max_cube_count` is zero in every dimension). -/
def matmulEnvTiny : MatmulTune.MatmulEnv :=
  { launch_ref := fun _ => .ok ()
    maxX := 0, maxY := 0, maxZ := 0
    tiling2dDefault := { block_size_m := 64, block_size_n := 64 }
    initMatmulOutput := fun _ rhs => rhs
    fresh := 100 }

/-! Theorems. -/

/-- Helper: the product the reduce key builder computes by zipping strides with
shapes and filtering equals the per-axis-index product used in the
specification-style formulation. -/
theorem zip_filterMap_prod (r : Nat) :
    ∀ (ss sh : List Nat), ss.length = sh.length →
      ((ss.zip sh).filterMap (fun p => if r < p.1 then some p.2 else none)).prod
        = ((List.range sh.length).map
            (fun i => if r < ss.getD i 0 then sh.getD i 1 else 1)).prod := by
  intro ss
  induction ss with
  | nil =>
    intro sh h
    cases sh with
    | nil => simp
    | cons x xs => simp at h
  | cons s st ih =>
    intro sh h
    cases sh with
    | nil => simp at h
    | cons x xs =>
      have hlen : st.length = xs.length := by simpa using h
      have hrec := ih xs hlen
      simp only [List.zip_cons_cons, List.filterMap_cons, List.length_cons,
        List.range_succ_eq_map, List.map_cons, List.map_map, List.prod_cons,
        List.getD_cons_zero]
      have hmap :
          ((fun i => if r < (s :: st).getD i 0 then (x :: xs).getD i 1 else 1) ∘ Nat.succ)
          = (fun i => if r < st.getD i 0 then xs.getD i 1 else 1) := by
        funext i
        simp [Function.comp, List.getD_cons_succ]
      by_cases hr : r < s
      · simp only [hr, if_true, List.prod_cons]
        rw [hrec, hmap]
      · simp only [hr, if_false]
        rw [hrec, hmap, one_mul]

/-- Claim C4 (amended): for every input tensor and in-range reduce axis, the
generated reduce key records the anchored shape and anchored stride of the
reduced axis, and its `outer_axes_product` field is the anchor of the product
of the shapes of exactly those axes whose stride strictly exceeds the reduced
axis's stride (the anchoring is applied by the derive-generated key
constructor). -/
theorem reduce_key_fields (input : CubeTensor) (axis sh st : Nat)
    (hlen : input.strides.length = input.shape.length)
    (hsh : input.shape.get? axis = some sh)
    (hst : input.strides.get? axis = some st) :
    ReduceAutotuneKey.generate input axis =
      .ok { dtype := input.dtype
            reduce_axis_shape := anchor sh
            reduce_axis_stride := anchor st
            outer_axes_product := anchor (outerAxesProductSpec input st) } := by
  have hlt : axis < input.shape.length := by
    have := List.get?_eq_some.mp hsh
    exact this.choose
  have hng : ¬ axis > input.shape.length := by omega
  unfold ReduceAutotuneKey.generate
  simp only [hng, if_false, hsh, hst]
  unfold ReduceAutotuneKey.new outerAxesProductSpec
  rw [zip_filterMap_prod st input.strides input.shape hlen]

/-- Concrete instance of `reduce_key_fields`: reducing the contiguous 3×4
tensor over axis 1. -/
theorem reduce_key_fields_witness :
    tMat34.strides.length = tMat34.shape.length ∧
    tMat34.shape.get? 1 = some 4 ∧
    tMat34.strides.get? 1 = some 1 ∧
    ReduceAutotuneKey.generate tMat34 1 =
      .ok { dtype := tMat34.dtype
            reduce_axis_shape := anchor 4
            reduce_axis_stride := anchor 1
            outer_axes_product := anchor (outerAxesProductSpec tMat34 1) } :=
  ⟨rfl, rfl, rfl, reduce_key_fields tMat34 1 4 1 rfl rfl rfl⟩

/-- Claim C4 (counterexample to the claim as stated): for the contiguous 3×4
tensor reduced over axis 1, the product of the shapes of the axes whose stride
strictly exceeds the reduced axis's stride is 3, but the generated key's
`outer_axes_product` field is 4 (the anchor of 3), so the field does not equal
that product. -/
theorem reduce_key_outer_product_anchored :
    ((tMat34.strides.zip tMat34.shape).filterMap
        (fun p => if 1 < p.1 then some p.2 else none)).prod = 3 ∧
    tMat34.strides.get? 1 = some 1 ∧
    ReduceAutotuneKey.generate tMat34 1 =
      .ok { dtype := .F32, reduce_axis_shape := 4
            reduce_axis_stride := 1, outer_axes_product := 4 } ∧
    (4 : Nat) ≠ 3 :=
  ⟨rfl, rfl, rfl, by decide⟩

/-- Claim C8: `matmul_accelerated` and `matmul_simple` are extensionally equal:
on every environment and operands they perform the same single launch of
`Strategy::Simple` with the same arguments and return its result. -/
theorem matmul_accelerated_eq_simple :
    ∀ (env : MatmulTune.MatmulEnv) (lhs rhs out : CubeTensor),
      MatmulTune.matmul_accelerated env lhs rhs out
        = MatmulTune.matmul_simple env lhs rhs out ∧
      MatmulTune.matmul_accelerated env lhs rhs out =
        { launches := [{ strategy := .Simple, lhs := lhs, rhs := rhs, out := out }]
          result := .ok (env.launch_ref
            { strategy := .Simple, lhs := lhs, rhs := rhs, out := out }) } :=
  fun _ _ _ _ => ⟨rfl, rfl⟩

/-- Claim C10 (amended): the sum key depends only on the dtype and the exact
(unanchored) total element count: equal dtype and equal element count yield
equal keys regardless of rank, individual axis shapes, or strides
(`SumAutotuneKey::generate` constructs the key literally, bypassing the
anchoring constructor). -/
theorem sum_key_depends_on_dtype_and_count :
    ∀ t1 t2 : CubeTensor, t1.dtype = t2.dtype → t1.shape.prod = t2.shape.prod →
      SumAutotuneKey.generate t1 = SumAutotuneKey.generate t2 := by
  intro t1 t2 hd hp
  simp [SumAutotuneKey.generate, hd, hp]

/-- Concrete instance of `sum_key_depends_on_dtype_and_count`: a length-6
vector and a 2×3 matrix share the sum key. -/
theorem sum_key_depends_on_dtype_and_count_witness :
    tVec6.dtype = tMat23.dtype ∧ tVec6.shape.prod = tMat23.shape.prod ∧
    SumAutotuneKey.generate tVec6 = SumAutotuneKey.generate tMat23 :=
  ⟨rfl, rfl, sum_key_depends_on_dtype_and_count tVec6 tMat23 rfl rfl⟩

/-- Claim C10 (counterexample to the claim as stated): length-1000 and
length-1024 f32 vectors have equal dtype and equal anchored element counts,
yet produce different sum keys (the generated key stores the raw length, so
they do not share one cached decision). -/
theorem sum_key_not_anchored :
    tVec1000.dtype = tVec1024.dtype ∧
    anchor tVec1000.shape.prod = anchor tVec1024.shape.prod ∧
    SumAutotuneKey.generate tVec1000 ≠ SumAutotuneKey.generate tVec1024 :=
  ⟨rfl, by decide, by decide⟩

/-- Claim C1 (the code diverges for matmul): when every candidate fails,
`autotune_reduce`, `autotune_sum` and `conv_transpose2d_autotune` panic
through `expect("All autotuners failed")`, but `matmul_autotune` discards the
tuner's `Result` — its tuner call reports that all candidates failed, and the
function nevertheless returns the preallocated output buffer normally. -/
theorem matmul_autotune_swallows_all_failed :
    (ReduceTune.autotune_reduce .F32 reduceEnvFail tMat34 tVec3 1).result
      = .error (.expectPanic "All autotuners failed") ∧
    SumTune.autotune_sum sumEnvFail tVec1000
      = .error (.expectPanic "All autotuners failed") ∧
    ConvTune.conv_transpose2d_autotune convEnvFail tConvIn tConvW (some tConvB) convOpts
      = .error (.expectPanic "All autotuners failed") ∧
    (MatmulTune.matmul_autotune .F32 matmulEnvFail tMat34 tMat34' (some tMat23)).tunerResult
      = .ok (.error "all candidates failed") ∧
    (MatmulTune.matmul_autotune .F32 matmulEnvFail tMat34 tMat34' (some tMat23)).result
      = .ok tMat23 :=
  ⟨rfl, rfl, rfl, rfl, rfl⟩

/-- Claim C2: reducing over an axis index that does not exist for the input's
rank (in particular an axis equal to the rank) makes the key builder fail
fatally, and the autotune call fails before any synthetic input is generated
and before any candidate is invoked. -/
theorem reduce_invalid_axis_fails_fast :
    ∀ (input output : CubeTensor) (axis : Nat) (ed : DType)
      (env : ReduceTune.ReduceEnv),
      input.shape.length ≤ axis →
      (∃ p, ReduceAutotuneKey.generate input axis = .error p) ∧
      (ReduceTune.autotune_reduce ed env input output axis).syntheticGenerated = false ∧
      (ReduceTune.autotune_reduce ed env input output axis).candidatesInvoked = 0 ∧
      ∃ p, (ReduceTune.autotune_reduce ed env input output axis).result = .error p := by
  intro input output axis ed env h
  have hgen : ∃ p, ReduceAutotuneKey.generate input axis = .error p := by
    unfold ReduceAutotuneKey.generate
    by_cases hgt : axis > input.shape.length
    · exact ⟨.axisOutOfBound axis input.shape.length, by simp [hgt]⟩
    · have hget : input.shape.get? axis = none := List.get?_eq_none.mpr h
      exact ⟨.indexOutOfBounds, by simp only [hgt, if_false, hget]⟩
  obtain ⟨p, hp⟩ := hgen
  have hck : ReduceTune.create_key input output axis = .error p := by
    simp [ReduceTune.create_key, hp, Except.map]
  refine ⟨⟨p, hp⟩, ?_, ?_, ⟨p, ?_⟩⟩ <;>
    simp [ReduceTune.autotune_reduce, hck]

/-- Concrete instance of `reduce_invalid_axis_fails_fast`: axis 1 on a rank-1
tensor (`axis == rank`). -/
theorem reduce_invalid_axis_fails_fast_witness :
    tVec4.shape.length ≤ 1 ∧
    ((∃ p, ReduceAutotuneKey.generate tVec4 1 = .error p) ∧
      (ReduceTune.autotune_reduce .F32 reduceEnvFail tVec4 tVec3 1).syntheticGenerated = false ∧
      (ReduceTune.autotune_reduce .F32 reduceEnvFail tVec4 tVec3 1).candidatesInvoked = 0 ∧
      ∃ p, (ReduceTune.autotune_reduce .F32 reduceEnvFail tVec4 tVec3 1).result = .error p) :=
  ⟨by decide, reduce_invalid_axis_fails_fast tVec4 tVec3 1 .F32 reduceEnvFail (by decide)⟩

/-- Claim C3: the reduce and conv-transpose-2d key builders are deterministic
(equal parameters give equal keys) and pure in the operation metadata: two
calls whose tensors agree on shapes, strides and dtype (and, for conv, on the
options and on bias presence) produce equal keys regardless of the tensors'
element data, handles, or the ignored output operand. -/
theorem key_builders_deterministic_and_pure :
    (∀ input output dim,
      ReduceTune.create_key input output dim = ReduceTune.create_key input output dim) ∧
    (∀ ed input weights bias options,
      ConvTune.create_key ed input weights bias options
        = ConvTune.create_key ed input weights bias options) ∧
    (∀ i1 o1 i2 o2 dim, i1.shape = i2.shape → i1.strides = i2.strides →
      i1.dtype = i2.dtype →
      ReduceTune.create_key i1 o1 dim = ReduceTune.create_key i2 o2 dim) ∧
    (∀ ed i1 w1 b1 i2 w2 b2 options, i1.shape = i2.shape → i1.strides = i2.strides →
      w1.shape = w2.shape → w1.strides = w2.strides → b1.isSome = b2.isSome →
      ConvTune.create_key ed i1 w1 b1 options = ConvTune.create_key ed i2 w2 b2 options) := by
  refine ⟨fun _ _ _ => rfl, fun _ _ _ _ _ => rfl, ?_, ?_⟩
  · intro i1 o1 i2 o2 dim hs hst hd
    simp only [ReduceTune.create_key, ReduceAutotuneKey.generate, hs, hst, hd]
  · intro ed i1 w1 b1 i2 w2 b2 options hs _hst hw _hwst hb
    simp only [ConvTune.create_key, hs, hw, hb]

/-- Concrete instance of `key_builders_deterministic_and_pure`: tensors with
identical metadata but different element data and handles produce identical
keys for both families. -/
theorem key_builders_deterministic_and_pure_witness :
    ReduceTune.create_key tMat34 tVec3 1 = ReduceTune.create_key tMat34' tVec4 1 ∧
    ConvTune.create_key .F32 tConvIn tConvW (some tConvB) convOpts
      = ConvTune.create_key .F32 tConvIn' tConvW' (some tConvB) convOpts :=
  ⟨key_builders_deterministic_and_pure.2.2.1 tMat34 tVec3 tMat34' tVec4 1 rfl rfl rfl,
   key_builders_deterministic_and_pure.2.2.2 .F32 tConvIn tConvW (some tConvB)
     tConvIn' tConvW' (some tConvB) convOpts rfl rfl rfl rfl rfl⟩

/-- Claim C5: when the last two output dimensions require more cubes than the
device maximum, `matmul_tiling2d` declines (an `Err` result) without
performing any launch; when both cube counts are within the limits it performs
exactly the `Tiling2D` launch and returns its outcome. -/
theorem tiling2d_declines_before_launch :
    ∀ (env : MatmulTune.MatmulEnv) (lhs rhs out : CubeTensor) (num_rows num_cols : Nat),
      2 ≤ out.shape.length →
      out.shape.get? (out.shape.length - 2) = some num_rows →
      out.shape.get? (out.shape.length - 1) = some num_cols →
      (MatmulTune.ceilDiv num_rows env.tiling2dDefault.block_size_m > env.maxX ∨
          MatmulTune.ceilDiv num_cols env.tiling2dDefault.block_size_n > env.maxY →
        MatmulTune.matmul_tiling2d env lhs rhs out =
          { launches := [], result := .ok (.error "Cube size too large") }) ∧
      (MatmulTune.ceilDiv num_rows env.tiling2dDefault.block_size_m ≤ env.maxX ∧
          MatmulTune.ceilDiv num_cols env.tiling2dDefault.block_size_n ≤ env.maxY →
        MatmulTune.matmul_tiling2d env lhs rhs out =
          { launches := [{ strategy := .Tiling2D env.tiling2dDefault
                           lhs := lhs, rhs := rhs, out := out }]
            result := .ok (env.launch_ref
              { strategy := .Tiling2D env.tiling2dDefault
                lhs := lhs, rhs := rhs, out := out }) }) := by
  intro env lhs rhs out num_rows num_cols h2 hr hc
  have hnl : ¬ out.shape.length < 2 := by omega
  have heval : MatmulTune.matmul_tiling2d env lhs rhs out =
      (if MatmulTune.ceilDiv num_rows env.tiling2dDefault.block_size_m > env.maxX ∨
          MatmulTune.ceilDiv num_cols env.tiling2dDefault.block_size_n > env.maxY then
        { launches := [], result := .ok (.error "Cube size too large") }
      else
        { launches := [{ strategy := .Tiling2D env.tiling2dDefault
                         lhs := lhs, rhs := rhs, out := out }]
          result := .ok (env.launch_ref
            { strategy := .Tiling2D env.tiling2dDefault
              lhs := lhs, rhs := rhs, out := out }) }) := by
    unfold MatmulTune.matmul_tiling2d
    rw [if_neg hnl, hr, hc]
  constructor
  · intro hover
    rw [heval, if_pos hover]
  · intro hfits
    have hnover : ¬ (MatmulTune.ceilDiv num_rows env.tiling2dDefault.block_size_m > env.maxX ∨
        MatmulTune.ceilDiv num_cols env.tiling2dDefault.block_size_n > env.maxY) := by
      push_neg
      exact hfits
    rw [heval, if_neg hnover]

/-- Concrete instances of `tiling2d_declines_before_launch`: on a device
admitting no cubes the candidate declines without launching; on a spacious
device it performs the `Tiling2D` launch. -/
theorem tiling2d_declines_before_launch_witness :
    2 ≤ tMat23.shape.length ∧
    MatmulTune.matmul_tiling2d matmulEnvTiny tMat34 tMat34' tMat23 =
      { launches := [], result := .ok (.error "Cube size too large") } ∧
    MatmulTune.matmul_tiling2d matmulEnvOk tMat34 tMat34' tMat23 =
      { launches := [{ strategy := .Tiling2D matmulEnvOk.tiling2dDefault
                       lhs := tMat34, rhs := tMat34', out := tMat23 }]
        result := .ok (matmulEnvOk.launch_ref
          { strategy := .Tiling2D matmulEnvOk.tiling2dDefault
            lhs := tMat34, rhs := tMat34', out := tMat23 }) } :=
  ⟨by decide,
   (tiling2d_declines_before_launch matmulEnvTiny tMat34 tMat34' tMat23 2 3
      (by decide) rfl rfl).1 (by decide),
   (tiling2d_declines_before_launch matmulEnvOk tMat34 tMat34' tMat23 2 3
      (by decide) rfl rfl).2 (by decide)⟩

/-- Claim C9: on an output of rank below 2, `matmul_tiling2d` panics (the
`rank - 2` underflow and the subsequent `unwrap`) without any launch, instead
of returning a declined-candidate `Err`. -/
theorem tiling2d_low_rank_panics :
    ∀ (env : MatmulTune.MatmulEnv) (lhs rhs out : CubeTensor),
      out.shape.length < 2 →
      MatmulTune.matmul_tiling2d env lhs rhs out =
        { launches := [], result := .error .unwrapFailure } ∧
      ∀ e, (MatmulTune.matmul_tiling2d env lhs rhs out).result ≠ .ok (.error e) := by
  intro env lhs rhs out h
  have h1 : MatmulTune.matmul_tiling2d env lhs rhs out =
      { launches := [], result := .error .unwrapFailure } := by
    unfold MatmulTune.matmul_tiling2d
    rw [if_pos h]
  refine ⟨h1, ?_⟩
  rw [h1]
  intro e hc
  exact Except.noConfusion hc

/-- Concrete instance of `tiling2d_low_rank_panics`: a rank-0 output. -/
theorem tiling2d_low_rank_panics_witness :
    tScalar.shape.length < 2 ∧
    (MatmulTune.matmul_tiling2d matmulEnvOk tMat34 tMat34' tScalar =
        { launches := [], result := .error .unwrapFailure } ∧
      ∀ e, (MatmulTune.matmul_tiling2d matmulEnvOk tMat34 tMat34' tScalar).result
        ≠ .ok (.error e)) :=
  ⟨by decide, tiling2d_low_rank_panics matmulEnvOk tMat34 tMat34' tScalar (by decide)⟩

/-- Claim C6: the synthetic bias produced by `create_transpose2d_input` is
present exactly when the key's `has_bias` flag is set (whatever the literal
bias argument is), and every key `create_key` returns carries
`has_bias = bias.is_some()`. -/
theorem conv_bias_mirrors_key_flag :
    (∀ (env : ConvTune.ConvEnv) (k : ConvTranspose2dAutotuneKey)
        (input weights : CubeTensor) (bias : Option CubeTensor)
        (options : ConvTransposeOptions),
      ∃ i w b o, ConvTune.create_transpose2d_input env (.ConvTranspose2d k)
          input weights bias options = .ok (i, w, b, o) ∧
        b.isSome = k.has_bias) ∧
    (∀ (ed : DType) (input weights : CubeTensor) (bias : Option CubeTensor)
        (options : ConvTransposeOptions) (key : CubeAutotuneKey),
      ConvTune.create_key ed input weights bias options = .ok key →
      ∃ ck, key = .ConvTranspose2d ck ∧ ck.has_bias = bias.isSome) := by
  constructor
  · intro env k input weights bias options
    refine ⟨_, _, _, _, rfl, ?_⟩
    cases hb : k.has_bias
    · simp [hb]
    · simp [hb]
  · intro ed input weights bias options key h
    unfold ConvTune.create_key at h
    split at h
    · cases h
      exact ⟨_, rfl, rfl⟩
    · cases h

/-- Concrete instance of `conv_bias_mirrors_key_flag`: a key with
`has_bias = true` and a call passing a bias. -/
theorem conv_bias_mirrors_key_flag_witness :
    (∃ i w b o, ConvTune.create_transpose2d_input convEnvOk
        (.ConvTranspose2d convKeyB) tConvIn tConvW none convOpts = .ok (i, w, b, o) ∧
      b.isSome = convKeyB.has_bias) ∧
    (∃ ck, CubeAutotuneKey.ConvTranspose2d convKeyB = .ConvTranspose2d ck ∧
      ck.has_bias = (some tConvB).isSome) :=
  ⟨conv_bias_mirrors_key_flag.1 convEnvOk convKeyB tConvIn tConvW none convOpts,
   conv_bias_mirrors_key_flag.2 .F32 tConvIn tConvW (some tConvB) convOpts
     (.ConvTranspose2d convKeyB) rfl⟩

/-- Claim C7: the reduce and matmul generators allocate a fresh output buffer
(a new handle, distinct from the real output's, with the real output's shape,
device and client, uninitialised), and the synthetic inputs are uniform in
`[-10, 10]` for reduce, matmul and sum, and uniform in `[-1, 1]` for
conv-transpose-2d. -/
theorem generators_fresh_output_and_bounds :
    (∀ (ed : DType) (env : ReduceTune.ReduceEnv) (input output : CubeTensor) (dim : Nat),
      output.handle < env.fresh →
      ∃ i o, ReduceTune.reduce_input_gen ed env input output dim = (i, o, dim) ∧
        i.data = .randomUniform (-10) 10 ∧
        o.shape = output.shape ∧ o.device = output.device ∧ o.client = output.client ∧
        o.data = .uninit ∧ o.handle ≠ output.handle) ∧
    (∀ (ed : DType) (env : MatmulTune.MatmulEnv) (lhs rhs out : CubeTensor),
      out.handle < env.fresh →
      ∃ l r o, MatmulTune.matmul_input_gen ed env lhs rhs out = (l, r, o) ∧
        l.data = .randomUniform (-10) 10 ∧ r.data = .randomUniform (-10) 10 ∧
        o.shape = out.shape ∧ o.device = out.device ∧ o.client = out.client ∧
        o.data = .uninit ∧ o.handle ≠ out.handle) ∧
    (∀ (env : SumTune.SumEnv) (input : CubeTensor),
      (SumTune.sum_input_gen env input).data = .randomUniform (-10) 10) ∧
    (∀ (env : ConvTune.ConvEnv) (k : ConvTranspose2dAutotuneKey)
        (input weights : CubeTensor) (bias : Option CubeTensor)
        (options : ConvTransposeOptions),
      ∃ i w b o, ConvTune.create_transpose2d_input env (.ConvTranspose2d k)
          input weights bias options = .ok (i, w, b, o) ∧
        i.data = .randomUniform (-1) 1 ∧ w.data = .randomUniform (-1) 1 ∧
        ∀ bt, b = some bt → bt.data = .randomUniform (-1) 1) := by
  refine ⟨?_, ?_, fun _ _ => rfl, ?_⟩
  · intro ed env input output dim h
    refine ⟨_, _, rfl, rfl, rfl, rfl, rfl, rfl, ?_⟩
    have hne : env.fresh + 1 ≠ output.handle := by omega
    exact hne
  · intro ed env lhs rhs out h
    refine ⟨_, _, _, rfl, rfl, rfl, rfl, rfl, rfl, rfl, ?_⟩
    have hne : env.fresh + 2 ≠ out.handle := by omega
    exact hne
  · intro env k input weights bias options
    refine ⟨_, _, _, _, rfl, rfl, rfl, ?_⟩
    intro bt hbt
    cases hb : k.has_bias
    · rw [hb] at hbt
      simp at hbt
    · rw [hb] at hbt
      simp at hbt
      rw [← hbt]
      rfl

/-- Concrete instance of `generators_fresh_output_and_bounds`: the reduce and
matmul generators applied to real tensors whose output handles precede the
allocator's fresh handle. -/
theorem generators_fresh_output_and_bounds_witness :
    tVec3.handle < reduceEnvFail.fresh ∧
    (∃ i o, ReduceTune.reduce_input_gen .F32 reduceEnvFail tMat34 tVec3 1 = (i, o, 1) ∧
      i.data = .randomUniform (-10) 10 ∧
      o.shape = tVec3.shape ∧ o.device = tVec3.device ∧ o.client = tVec3.client ∧
      o.data = .uninit ∧ o.handle ≠ tVec3.handle) ∧
    tMat23.handle < matmulEnvOk.fresh ∧
    (∃ l r o, MatmulTune.matmul_input_gen .F32 matmulEnvOk tMat34 tMat34' tMat23 = (l, r, o) ∧
      l.data = .randomUniform (-10) 10 ∧ r.data = .randomUniform (-10) 10 ∧
      o.shape = tMat23.shape ∧ o.device = tMat23.device ∧ o.client = tMat23.client ∧
      o.data = .uninit ∧ o.handle ≠ tMat23.handle) :=
  ⟨by decide,
   generators_fresh_output_and_bounds.1 .F32 reduceEnvFail tMat34 tVec3 1 (by decide),
   by decide,
   generators_fresh_output_and_bounds.2.1 .F32 matmulEnvOk tMat34 tMat34' tMat23 (by decide)⟩

end Burn


